import Mathlib

/-!
Verification of the technical-analysis script
(src/technical-analysis/scripts/analyze.py) against its specification.

The script is embedded shallowly:

* a pandas DataFrame of daily bars becomes a list of Bar records
  (dates are day numbers since the Unix epoch; prices are rationals,
  standing in for the floating-point values of the original);
* the volume column may hold NaN in a real DataFrame, so Bar.Volume
  is an Option: none models NaN, some v a proper number;
* every interaction with the outside world (the filesystem under the
  cache directory, the market-data provider, the clock) is a field of
  an Env record describing one concrete behavior of those
  collaborators; quantifying over Env quantifies over all behaviors,
  including every exception they can raise (exceptions are modelled
  as their message string);
* Python control flow that can raise becomes Except String;
  analyze_stock's top-level try/except is the final match that turns
  an error into the error record.

Division by zero on rationals yields 0 where the floating-point
original would produce an infinity or NaN; no theorem below depends
on that corner.  Rounding of a .5 tie follows round-half-up where
Python uses banker's rounding; no theorem below depends on a tie.
-/

/-- One daily bar of a price series: one row of the DataFrame returned
by the provider.  Field names follow the DataFrame column names.
Volume is an Option because the volume column of a real DataFrame can
hold NaN (none models NaN). -/
structure Bar where
  Date : Int
  Open : ℚ
  High : ℚ
  Low : ℚ
  Close : ℚ
  Volume : Option ℚ
deriving DecidableEq, Inhabited

/-- Outcome of the cache-file lookup made by get_cached_data, once the
cache directory exists: the file is missing, the file exists but
opening or unpickling it (or indexing the unpickled dict) raises, or
the file holds a well-formed entry whose data field is the given
series. -/
inductive ReadOutcome where
  | missing : ReadOutcome
  | corrupt : ReadOutcome
  | entry : List Bar → ReadOutcome
deriving DecidableEq, Inhabited

/-- One concrete behavior of the external collaborators of
analyze_stock: the filesystem under the cache directory, the
market-data provider, and the clock.  mkdir1 is the outcome of the
CACHE_DIR.mkdir call made by get_cache_path from inside
get_cached_data, mkdir2 the outcome of the same call made from inside
set_cached_data (the filesystem may change between the two); an error
value is the exception the call raises.  writeOk tells whether the
pickle dump inside set_cached_data succeeds.  fetchFull is the series
returned (or exception raised) by stock.history(period=period),
fetchSince d the one returned by stock.history(start=d).  today is
datetime.now().date(), now is datetime.now().timestamp().  sqrtFn is
the square-root primitive of the floating-point platform, used only
inside the Bollinger-band computation; it is abstracted as an
arbitrary function because rational numbers have no exact square
root. -/
structure Env where
  mkdir1 : Except String Unit
  mkdir2 : Except String Unit
  readOutcome : ReadOutcome
  writeOk : Bool
  fetchFull : Except String (List Bar)
  fetchSince : Int → Except String (List Bar)
  today : Int
  now : ℚ
  sqrtFn : ℚ → ℚ

/-- Embedding of get_cached_data (analyze.py lines 29-42).  The call
to get_cache_path (line 31) runs CACHE_DIR.mkdir outside any
try/except, so a mkdir failure propagates as an exception; after
that, a missing file returns None and any failure while opening,
unpickling or indexing the pickled dict is swallowed and also
returns None. -/
def get_cached_data (env : Env) : Except String (Option (List Bar)) :=
  match env.mkdir1 with
  | Except.error e => Except.error e
  | Except.ok _ =>
    match env.readOutcome with
    | ReadOutcome.missing => Except.ok none
    | ReadOutcome.corrupt => Except.ok none
    | ReadOutcome.entry d => Except.ok (some d)

/-- Embedding of set_cached_data (analyze.py lines 45-58).  The call
to get_cache_path (line 47) runs CACHE_DIR.mkdir outside the
try/except, so a mkdir failure propagates as an exception; the pickle
dump itself is inside the try, so its failure is swallowed.  Returns
the cache entry (timestamp, data) actually persisted, if any. -/
def set_cached_data (env : Env) (data : List Bar) :
    Except String (Option (ℚ × List Bar)) :=
  match env.mkdir2 with
  | Except.error e => Except.error e
  | Except.ok _ =>
    if env.writeOk then Except.ok (some (env.now, data)) else Except.ok none

/-- Embedding of the duplicate-removal step
data[~data.index.duplicated(keep=last)] (analyze.py line 139): a row
is kept exactly when no later row carries the same date, so for every
date the last occurrence survives, in order. -/
def dedupKeepLast : List Bar → List Bar
  | [] => []
  | b :: rest =>
    if rest.any (fun c => c.Date == b.Date) then dedupKeepLast rest
    else b :: dedupKeepLast rest

/-- Embedding of the merge of cached and newly fetched data
(analyze.py lines 137-139): pd.concat([cached_data, new_data])
followed by removal of duplicated dates keeping the last
occurrence. -/
def mergeSeries (cached_data new_data : List Bar) : List Bar :=
  dedupKeepLast (cached_data ++ new_data)

/-- The most recent n elements of a list: series.tail(n) in pandas. -/
def lastN (n : Nat) (l : List α) : List α := l.drop (l.length - n)

/-- Rounding to d decimal places, as Python round(x, d).  A .5 tie is
rounded half-up where Python rounds to even; no claim depends on a
tie. -/
def roundTo (q : ℚ) (d : Nat) : ℚ := ((round (q * 10 ^ d) : ℤ) : ℚ) / 10 ^ d

/-- Conversion of a float to int as Python int(): truncation toward
zero. -/
def intTrunc (q : ℚ) : ℤ := if 0 ≤ q then ⌊q⌋ else ⌈q⌉

/-- Embedding of safe_round (analyze.py lines 61-63): a NaN input
(modelled as none) gives None, any other value is rounded. -/
def safe_round (value : Option ℚ) (decimals : Nat := 2) : Option ℚ :=
  value.map (fun v => roundTo v decimals)

/-- Embedding of safe_get (analyze.py lines 66-70): the column is
either absent or NaN (both modelled as none, giving None) or its
value is rounded. -/
def safe_get (value : Option ℚ) (decimals : Nat := 2) : Option ℚ :=
  value.map (fun v => roundTo v decimals)

/-- English weekday name of an epoch day number; day 0 (1970-01-01)
was a Thursday.  Mirrors the day_names table of
get_market_day_label (analyze.py lines 94-106). -/
def dayName (d : Int) : String :=
  match ((d + 3) % 7).toNat with
  | 0 => "Monday"
  | 1 => "Tuesday"
  | 2 => "Wednesday"
  | 3 => "Thursday"
  | 4 => "Friday"
  | 5 => "Saturday"
  | _ => "Sunday"

/-- Embedding of get_market_day_label (analyze.py lines 73-108) for
the latest bar date of the series; the caller passes data.index[-1],
having already established the series is non-empty. -/
def get_market_day_label (today latest_date : Int) : String :=
  if latest_date = today then "today" else dayName latest_date

/-- Modelled from the spec: pandas_ta.sma, whose code is not part of
this repository.  Per the specification, a simple moving average over
window n is undefined until n bars exist, and is the mean of the last
n closing prices afterwards. -/
def smaLast (n : Nat) (closes : List ℚ) : Option ℚ :=
  if n ≤ closes.length ∧ 0 < n then
    some ((lastN n closes).sum / (n : ℚ))
  else none

/-- Running exponential smoothing with factor a from accumulator acc:
each step replaces acc with a * close + (1 - a) * acc and emits the
new value. -/
def emaStep (a : ℚ) (acc : ℚ) : List ℚ → List ℚ
  | [] => []
  | c :: rest =>
    let v := a * c + (1 - a) * acc
    v :: emaStep a v rest

/-- Modelled from the spec: pandas_ta.ema, whose code is not part of
this repository.  Per the specification, the exponential moving
average with span n is standard exponential smoothing (factor
2 / (n + 1)), defined from the first bar on and undefined only for an
empty series; this yields the full per-date column. -/
def emaSeq (n : Nat) (closes : List ℚ) : List ℚ :=
  match closes with
  | [] => []
  | c :: rest => c :: emaStep (2 / ((n : ℚ) + 1)) c rest

/-- The exponential moving average at the latest row: the last entry
of the per-date column, none for an empty series. -/
def emaLast (n : Nat) (closes : List ℚ) : Option ℚ :=
  (emaSeq n closes).getLast?

/-- Consecutive differences of a list: close.diff() without its
leading NaN. -/
def diffs (l : List ℚ) : List ℚ :=
  List.zipWith (fun x y => x - y) (l.drop 1) l

/-- Wilder smoothing: each new observation x updates the running
average to (avg * (n - 1) + x) / n. -/
def wilderAvg (n : ℚ) (avg : ℚ) : List ℚ → ℚ
  | [] => avg
  | x :: xs => wilderAvg n ((avg * (n - 1) + x) / n) xs

/-- Modelled from the spec: pandas_ta.rsi, whose code is not part of
this repository.  Per the specification, the n-period relative
strength index is Wilder-style: the ratio of the smoothed average
gain to the smoothed average loss over the trailing window, scaled to
0-100, undefined until enough bars exist (n price changes need n + 1
bars).  A zero average loss gives the limit value 100. -/
def rsiLast (n : Nat) (closes : List ℚ) : Option ℚ :=
  let ds := diffs closes
  if n ≤ ds.length ∧ 0 < n then
    let gains := ds.map (fun d => max d 0)
    let losses := ds.map (fun d => max (-d) 0)
    let ag := wilderAvg (n : ℚ) ((gains.take n).sum / (n : ℚ)) (gains.drop n)
    let al := wilderAvg (n : ℚ) ((losses.take n).sum / (n : ℚ)) (losses.drop n)
    some (if al = 0 then 100 else 100 - 100 / (1 + ag / al))
  else none

/-- Modelled from the spec: pandas_ta.macd, whose code is not part of
this repository.  Per the specification, the MACD line is EMA(fast)
minus EMA(slow) of the closes, the signal line a signal-period EMA of
the MACD line, the histogram their difference; the call returns no
columns (None) when fewer bars than the slow span exist, which
surfaces as absent columns downstream.  Returns the latest
(line, signal, histogram). -/
def macdLast (fast slow signal : Nat) (closes : List ℚ) : Option (ℚ × ℚ × ℚ) :=
  if slow ≤ closes.length then
    let line := List.zipWith (fun a b => a - b) (emaSeq fast closes) (emaSeq slow closes)
    let sig := emaSeq signal line
    let m := (line.getLast?).getD 0
    let s := (sig.getLast?).getD 0
    some (m, s, m - s)
  else none

/-- Modelled from the spec: pandas_ta.bbands, whose code is not part
of this repository.  Per the specification, the Bollinger bands at
window n and width k are middle = SMA(n) and middle plus or minus
k * stddev(n); the call returns no columns when fewer than n bars
exist.  The square root inside the standard deviation is taken from
the platform primitive sqrtFn.  Returns the latest
(lower, middle, upper). -/
def bbLast (sqrtFn : ℚ → ℚ) (n : Nat) (k : ℚ) (closes : List ℚ) :
    Option (ℚ × ℚ × ℚ) :=
  if n ≤ closes.length ∧ 0 < n then
    let w := lastN n closes
    let mid := w.sum / (n : ℚ)
    let sd := sqrtFn ((w.map (fun c => (c - mid) ^ 2)).sum / (n : ℚ))
    some (mid - k * sd, mid, mid + k * sd)
  else none

/-- Embedding of the trend computation (analyze.py lines 196-205).
Python truthiness makes the guard "if sma_50_val and sma_200_val"
skip to neutral not only when either value is None but also when
either equals 0.0. -/
def computeTrend (current_price : ℚ) (sma_50_val sma_200_val : Option ℚ) :
    String :=
  match sma_50_val, sma_200_val with
  | some a, some b =>
    if a ≠ 0 ∧ b ≠ 0 then
      if current_price > a ∧ current_price > b then "bullish"
      else if current_price < a ∧ current_price < b then "bearish"
      else "neutral"
    else "neutral"
  | _, _ => "neutral"

/-- Embedding of the relative-position flags (analyze.py lines
208-209).  Python truthiness: a defined average equal to 0.0 behaves
like an undefined one and yields N/A. -/
def priceVsSma (current_price : ℚ) (sma_val : Option ℚ) : String :=
  match sma_val with
  | some a =>
    if a ≠ 0 then (if current_price > a then "above" else "below") else "N/A"
  | none => "N/A"

/-- Embedding of highs.nlargest(3).tolist() sorted descending
(analyze.py line 215): the list sorted by greater-or-equal, truncated
to its first three entries. -/
def top3Desc (l : List ℚ) : List ℚ :=
  (List.insertionSort (fun a b => a ≥ b) l).take 3

/-- Embedding of sorted(lows.nsmallest(3).tolist()) (analyze.py line
216): the list sorted ascending, truncated to its first three
entries. -/
def bottom3Asc (l : List ℚ) : List ℚ :=
  (List.insertionSort (fun a b => a ≤ b) l).take 3

/-- The fully populated snapshot record built at analyze.py lines
219-244, field for field. -/
structure Snapshot where
  ticker : String
  current_price : ℚ
  price_change_1d : ℚ
  price_change_pct_1d : ℚ
  day_label : String
  volume : ℤ
  sma_20 : Option ℚ
  sma_50 : Option ℚ
  sma_200 : Option ℚ
  ema_8 : Option ℚ
  ema_10 : Option ℚ
  ema_21 : Option ℚ
  rsi_14 : Option ℚ
  macd : Option ℚ
  macd_signal : Option ℚ
  macd_histogram : Option ℚ
  bb_upper : Option ℚ
  bb_middle : Option ℚ
  bb_lower : Option ℚ
  price_vs_sma_50 : String
  price_vs_sma_200 : String
  trend : String
  support_levels : List ℚ
  resistance_levels : List ℚ
deriving DecidableEq, Inhabited

/-- The result of analyze_stock: either the snapshot record or the
single error-record shape, a dict holding only the key error with a
message. -/
inductive AnalysisResult where
  | ok : Snapshot → AnalysisResult
  | error : String → AnalysisResult
deriving DecidableEq, Inhabited

/-- The snapshot carried by a successful result, used to name the
snapshot of a concrete run inside closed statements. -/
def snapOf (r : Except String Snapshot) : Snapshot :=
  match r with
  | Except.ok s => s
  | Except.error _ => default

/-- Embedding of the pipeline from the latest-values extraction to the
result dict (analyze.py lines 158-246), applied to the working series.
The only operation in this stretch that can raise is
int(latest[Volume]) on a NaN volume (line 225); indexing data.iloc[-1]
on an empty frame would also raise, but every caller has already
returned the no-data error record for an empty series.  Each field of
the record mirrors one line of the dict literal. -/
def buildSnapshot (env : Env) (ticker : String) (data : List Bar) :
    Except String Snapshot :=
  match data.getLast? with
  | none => Except.error "single positional indexer is out-of-bounds"
  | some latest =>
    match latest.Volume with
    | none => Except.error "cannot convert float NaN to integer"
    | some vol =>
      let closes := data.map Bar.Close
      let current_price := latest.Close
      let prev_close :=
        if 1 < data.length then ((data.dropLast.getLast?).getD latest).Close
        else current_price
      let price_change := current_price - prev_close
      let price_change_pct := price_change / prev_close * 100
      let sma_50_val := smaLast 50 closes
      let sma_200_val := smaLast 200 closes
      let macd_vals := macdLast 12 26 9 closes
      let bb_vals := bbLast env.sqrtFn 20 2 closes
      let highs := lastN 50 (data.map Bar.High)
      let lows := lastN 50 (data.map Bar.Low)
      let resistance_levels := top3Desc highs
      let support_levels := bottom3Asc lows
      Except.ok
        { ticker := ticker.toUpper
          current_price := roundTo current_price 2
          price_change_1d := roundTo price_change 2
          price_change_pct_1d := roundTo price_change_pct 2
          day_label := get_market_day_label env.today latest.Date
          volume := intTrunc vol
          sma_20 := safe_round (smaLast 20 closes)
          sma_50 := safe_round sma_50_val
          sma_200 := safe_round sma_200_val
          ema_8 := safe_round (emaLast 8 closes)
          ema_10 := safe_round (emaLast 10 closes)
          ema_21 := safe_round (emaLast 21 closes)
          rsi_14 := safe_round (rsiLast 14 closes)
          macd := safe_get (macd_vals.map (fun t => t.1)) 4
          macd_signal := safe_get (macd_vals.map (fun t => t.2.1)) 4
          macd_histogram := safe_get (macd_vals.map (fun t => t.2.2)) 4
          bb_upper := safe_get (bb_vals.map (fun t => t.2.2))
          bb_middle := safe_get (bb_vals.map (fun t => t.2.1))
          bb_lower := safe_get (bb_vals.map (fun t => t.1))
          price_vs_sma_50 := priceVsSma current_price sma_50_val
          price_vs_sma_200 := priceVsSma current_price sma_200_val
          trend := computeTrend current_price sma_50_val sma_200_val
          support_levels := support_levels.map (fun x => roundTo x 2)
          resistance_levels := resistance_levels.map (fun x => roundTo x 2) }

/-- Embedding of analyze.py lines 155-249 applied to the working
series, with the cache entries persisted so far threaded through: the
second emptiness check returning the no-data error record, then the
snapshot construction, any exception of which is caught by the
top-level handler and becomes the error record. -/
def finishAnalysis (env : Env) (ticker : String) (data : List Bar)
    (writes : List (ℚ × List Bar)) : AnalysisResult × List (ℚ × List Bar) :=
  if data.isEmpty then
    (AnalysisResult.error ("No data found for ticker " ++ ticker), writes)
  else
    match buildSnapshot env ticker data with
    | Except.ok snap => (AnalysisResult.ok snap, writes)
    | Except.error e => (AnalysisResult.error e, writes)

/-- Embedding of analyze_stock (analyze.py lines 111-249) under the
collaborator behavior env.  The first component is the returned dict
(snapshot or error record); the second lists the cache entries
persisted during the run, in order, so that theorems can speak about
what was written.  Every exception raised inside the body is caught
by the top-level handler and becomes the error record with the
exception message; mkdir failures inside get_cache_path are the only
cache failures that reach that handler, the rest are swallowed where
they occur. -/
def analyze_stock (env : Env) (ticker : String) :
    AnalysisResult × List (ℚ × List Bar) :=
  match get_cached_data env with
  | Except.error e => (AnalysisResult.error e, [])
  | Except.ok (some cached_data) =>
    match cached_data.getLast? with
    | none =>
      (AnalysisResult.error "index -1 is out of bounds for axis 0 with size 0",
        [])
    | some last_bar =>
      match env.fetchSince (last_bar.Date + 1) with
      | Except.error e => (AnalysisResult.error e, [])
      | Except.ok new_data =>
        if new_data.isEmpty then finishAnalysis env ticker cached_data []
        else
          match set_cached_data env (mergeSeries cached_data new_data) with
          | Except.error e => (AnalysisResult.error e, [])
          | Except.ok w =>
            finishAnalysis env ticker (mergeSeries cached_data new_data)
              w.toList
  | Except.ok none =>
    match env.fetchFull with
    | Except.error e => (AnalysisResult.error e, [])
    | Except.ok data =>
      if data.isEmpty then
        (AnalysisResult.error ("No data found for ticker " ++ ticker), [])
      else
        match set_cached_data env data with
        | Except.error e => (AnalysisResult.error e, [])
        | Except.ok w => finishAnalysis env ticker data w.toList

/-- A synthetic bar whose four prices all equal c, dated day d, with a
plain volume; concrete inputs for the theorems below are built from
it. -/
def mkBar (d : Int) (c : ℚ) : Bar :=
  { Date := d, Open := c, High := c, Low := c, Close := c, Volume := some 10 }

/-- A one-bar series for concrete runs: day 0, price 1, volume 100. -/
def barA : Bar :=
  { Date := 0, Open := 1, High := 1, Low := 1, Close := 1, Volume := some 100 }

/-- A second bar for concrete runs: day 1, price 2, volume 150. -/
def barB : Bar :=
  { Date := 1, Open := 2, High := 2, Low := 2, Close := 2, Volume := some 150 }

/-- A bar whose volume is NaN (modelled as none): day 0, price 1. -/
def barNaN : Bar :=
  { Date := 0, Open := 1, High := 1, Low := 1, Close := 1, Volume := none }

/-- A benign collaborator behavior: cache directory exists, no cache
entry, writes succeed, the provider answers the full fetch with two
bars and the incremental fetch with nothing. -/
def envBase : Env :=
  { mkdir1 := Except.ok (), mkdir2 := Except.ok (),
    readOutcome := ReadOutcome.missing, writeOk := true,
    fetchFull := Except.ok [barA, barB],
    fetchSince := fun _ => Except.ok [], today := 10, now := 0,
    sqrtFn := fun _ => 0 }

/-- A behavior with a cached one-bar series where creating the cache
directory fails on the second call, the one made from inside
set_cached_data while persisting the merge of a successful
incremental fetch. -/
def envDirFail : Env :=
  { mkdir1 := Except.ok (), mkdir2 := Except.error "Permission denied: .cache",
    readOutcome := ReadOutcome.entry [barA], writeOk := true,
    fetchFull := Except.ok [barA, barB],
    fetchSince := fun _ => Except.ok [barB], today := 10, now := 0,
    sqrtFn := fun _ => 0 }

/-- A behavior whose cache file unpickles to a well-formed entry
holding an empty series, while the provider would answer a full fetch
with two bars. -/
def envEmptyEntry : Env :=
  { mkdir1 := Except.ok (), mkdir2 := Except.ok (),
    readOutcome := ReadOutcome.entry [], writeOk := true,
    fetchFull := Except.ok [barA, barB],
    fetchSince := fun _ => Except.ok [], today := 10, now := 0,
    sqrtFn := fun _ => 0 }

/-- A behavior whose cache file is corrupt (unpickling raises), with a
successful two-bar full fetch. -/
def envCorrupt : Env :=
  { envBase with readOutcome := ReadOutcome.corrupt }

/-- A behavior with a cached one-bar series and a provider with
nothing new after it. -/
def envWarmQuiet : Env :=
  { envBase with readOutcome := ReadOutcome.entry [barA] }

/-- A behavior with no cache entry and a provider returning an empty
series for the full period. -/
def envNoData : Env :=
  { envBase with fetchFull := Except.ok [] }

/-- A behavior with no cache entry and a provider whose single bar
carries a NaN volume. -/
def envNaNVolume : Env :=
  { envBase with fetchFull := Except.ok [barNaN] }

/-- A 200-bar series whose last two closes are -2 and 2 after 198
closes of 0: its 50-bar and 200-bar simple moving averages are both
exactly 0 while the latest close 2 lies above both. -/
def seriesZeroSma : List Bar :=
  ((List.range 198).map (fun i => mkBar (Int.ofNat i) 0))
    ++ [mkBar 198 (-2), mkBar 199 2]

/-- A four-bar series realizing the high prices 10, 12, 15, 11 of the
support/resistance example in the spec. -/
def seriesHighs : List Bar :=
  [mkBar 0 10, mkBar 1 12, mkBar 2 15, mkBar 3 11]

/-- A series with duplicate-free dates passes through the
duplicate-removal step unchanged. -/
theorem dedupKeepLast_of_nodup (l : List Bar) (h : (l.map Bar.Date).Nodup) :
    dedupKeepLast l = l := by
  induction l with
  | nil => rfl
  | cons b rest ih =>
    simp only [List.map_cons, List.nodup_cons] at h
    have hb : rest.any (fun c => c.Date == b.Date) = false := by
      simp only [List.any_eq_false, beq_iff_eq]
      intro c hc hcb
      exact h.1 (by simpa [hcb] using List.mem_map_of_mem Bar.Date hc)
    simp [dedupKeepLast, hb, ih h.2]

/-- Unfolding equation of dedupKeepLast on a non-empty list. -/
theorem dedupKeepLast_cons (b : Bar) (rest : List Bar) :
    dedupKeepLast (b :: rest)
      = if rest.any (fun c => c.Date == b.Date) then dedupKeepLast rest
        else b :: dedupKeepLast rest := rfl

/-- Removing duplicated dates from cached followed by new keeps, of
the cached rows, exactly those whose date does not recur among the
new rows, in order, followed by the deduplication of the new rows. -/
theorem dedupKeepLast_append (cached_data new_data : List Bar)
    (hc : (cached_data.map Bar.Date).Nodup) :
    dedupKeepLast (cached_data ++ new_data)
      = cached_data.filter (fun b => !(new_data.any (fun c => c.Date == b.Date)))
          ++ dedupKeepLast new_data := by
  induction cached_data with
  | nil => simp
  | cons b cs ih =>
    simp only [List.map_cons, List.nodup_cons] at hc
    have hb : (cs.any fun c => c.Date == b.Date) = false := by
      simp only [List.any_eq_false, beq_iff_eq]
      intro c hcmem hcb
      exact hc.1 (by simpa [hcb] using List.mem_map_of_mem Bar.Date hcmem)
    have hcond : ((cs ++ new_data).any fun c => c.Date == b.Date)
        = (new_data.any fun c => c.Date == b.Date) := by
      simp [List.any_append, hb]
    rw [List.cons_append, dedupKeepLast_cons, hcond, ih hc.2, List.filter_cons]
    cases hnew : new_data.any (fun c => c.Date == b.Date) with
    | true => simp [hnew]
    | false => simp [hnew]

/-- The merge of two series with duplicate-free dates has
duplicate-free dates. -/
theorem mergeSeries_date_nodup (cached_data new_data : List Bar)
    (hc : (cached_data.map Bar.Date).Nodup)
    (hn : (new_data.map Bar.Date).Nodup) :
    ((mergeSeries cached_data new_data).map Bar.Date).Nodup := by
  rw [mergeSeries, dedupKeepLast_append _ _ hc, dedupKeepLast_of_nodup _ hn,
    List.map_append]
  apply List.Nodup.append
  · exact hc.sublist ((List.filter_sublist _).map Bar.Date)
  · exact hn
  · intro d hd1 hd2
    obtain ⟨b, hbmem, rfl⟩ := List.mem_map.1 hd1
    obtain ⟨c, hcmem, hcd⟩ := List.mem_map.1 hd2
    have hbf := (List.mem_filter.1 hbmem).2
    simp only [Bool.not_eq_eq_eq_not, Bool.not_true, List.any_eq_false,
      beq_iff_eq] at hbf
    exact hbf c hcmem hcd

/-- C4: for a non-empty cached series and a non-empty provider
response, both with strictly increasing dates, the working series
produced by the merge step is the cached series with every row whose
date recurs among the new bars dropped, followed by the new bars
(so a provider bar dated D replaces the cached bar dated D), every
new bar is in the merge, and the merged series has no duplicate
dates. -/
theorem mergeSeries_incremental (cached_data new_data : List Bar)
    (hc : (cached_data.map Bar.Date).Pairwise (· < ·))
    (hn : (new_data.map Bar.Date).Pairwise (· < ·))
    (_hcne : cached_data ≠ []) (_hnne : new_data ≠ []) :
    mergeSeries cached_data new_data
        = cached_data.filter
            (fun b => !(new_data.any (fun c => c.Date == b.Date)))
          ++ new_data
      ∧ (∀ nb ∈ new_data, nb ∈ mergeSeries cached_data new_data)
      ∧ ((mergeSeries cached_data new_data).map Bar.Date).Nodup := by
  have hcn : (cached_data.map Bar.Date).Nodup := hc.imp Int.ne_of_lt
  have hnn : (new_data.map Bar.Date).Nodup := hn.imp Int.ne_of_lt
  have heq : mergeSeries cached_data new_data
      = cached_data.filter
          (fun b => !(new_data.any (fun c => c.Date == b.Date)))
        ++ new_data := by
    rw [mergeSeries, dedupKeepLast_append _ _ hcn, dedupKeepLast_of_nodup _ hnn]
  refine ⟨heq, ?_, mergeSeries_date_nodup _ _ hcn hnn⟩
  intro nb hnb
  rw [heq]
  exact List.mem_append_right _ hnb

/-- Witness for C4 at a concrete overlap: a one-bar cache dated day 0
with close 10, and a provider response revising day 0 to close 11 and
adding day 1. -/
theorem mergeSeries_incremental_witness :
    (([mkBar 0 10].map Bar.Date).Pairwise (· < ·)
        ∧ ([mkBar 0 11, mkBar 1 12].map Bar.Date).Pairwise (· < ·)
        ∧ [mkBar 0 10] ≠ [] ∧ [mkBar 0 11, mkBar 1 12] ≠ ([] : List Bar))
      ∧ (mergeSeries [mkBar 0 10] [mkBar 0 11, mkBar 1 12]
            = [mkBar 0 10].filter
                (fun b => !([mkBar 0 11, mkBar 1 12].any
                  (fun c => c.Date == b.Date)))
              ++ [mkBar 0 11, mkBar 1 12]
          ∧ (∀ nb ∈ [mkBar 0 11, mkBar 1 12],
              nb ∈ mergeSeries [mkBar 0 10] [mkBar 0 11, mkBar 1 12])
          ∧ ((mergeSeries [mkBar 0 10] [mkBar 0 11, mkBar 1 12]).map
              Bar.Date).Nodup) :=
  ⟨⟨by simp [mkBar], by simp [mkBar], by simp, by simp⟩,
    mergeSeries_incremental _ _ (by simp [mkBar]) (by simp [mkBar])
      (by simp) (by simp)⟩

/-- C1: whatever the collaborators do, including any exception they
raise, analyze_stock returns either the fully populated snapshot
record or the single-shape error record; no exception escapes. -/
theorem analyze_stock_total (env : Env) (ticker : String) :
    (∃ snap, (analyze_stock env ticker).fst = AnalysisResult.ok snap)
      ∨ (∃ msg, (analyze_stock env ticker).fst = AnalysisResult.error msg) := by
  cases h : (analyze_stock env ticker).fst with
  | ok snap => exact Or.inl ⟨snap, rfl⟩
  | error msg => exact Or.inr ⟨msg, rfl⟩

/-- The snapshot construction reads only the clock and the square-root
primitive from the collaborator behavior, so two behaviors agreeing on
those build identical snapshots. -/
theorem buildSnapshot_env_congr (e1 e2 : Env) (hs : e1.sqrtFn = e2.sqrtFn)
    (ht : e1.today = e2.today) (ticker : String) (data : List Bar) :
    buildSnapshot e1 ticker data = buildSnapshot e2 ticker data := by
  unfold buildSnapshot
  simp only [hs, ht]

/-- The returned record of the analysis tail does not depend on the
write log threaded beside it, and only on the clock and square-root
fields of the behavior. -/
theorem finishAnalysis_fst_congr (e1 e2 : Env) (ticker : String)
    (data : List Bar) (w w' : List (ℚ × List Bar))
    (hs : e1.sqrtFn = e2.sqrtFn) (ht : e1.today = e2.today) :
    (finishAnalysis e1 ticker data w).fst
      = (finishAnalysis e2 ticker data w').fst := by
  unfold finishAnalysis
  rw [buildSnapshot_env_congr e1 e2 hs ht]
  cases data.isEmpty with
  | true => rfl
  | false => cases buildSnapshot e2 ticker data <;> rfl

/-- A failed pickle dump inside set_cached_data is invisible in the
returned record: with the cache directory in place, the analysis
result is the same whether the write persists or fails, for every
behavior of the other collaborators. -/
theorem analyze_stock_writeOk_irrelevant (env : Env) (ticker : String) :
    (analyze_stock { env with writeOk := false } ticker).fst
      = (analyze_stock { env with writeOk := true } ticker).fst := by
  cases hm : env.mkdir1 with
  | error e => simp [analyze_stock, get_cached_data, hm]
  | ok u =>
    cases hro : env.readOutcome with
    | missing =>
      cases hf : env.fetchFull with
      | error e => simp [analyze_stock, get_cached_data, hm, hro, hf]
      | ok data =>
        cases hde : data.isEmpty with
        | true => simp [analyze_stock, get_cached_data, hm, hro, hf, hde]
        | false =>
          cases hm2 : env.mkdir2 with
          | error e =>
            simp [analyze_stock, get_cached_data, set_cached_data, hm, hro,
              hf, hde, hm2]
          | ok u2 =>
            simp only [analyze_stock, get_cached_data, set_cached_data, hm,
              hro, hf, hde, hm2, Bool.false_eq_true, if_false, if_true]
            exact finishAnalysis_fst_congr _ _ _ _ _ _ rfl rfl
    | corrupt =>
      cases hf : env.fetchFull with
      | error e => simp [analyze_stock, get_cached_data, hm, hro, hf]
      | ok data =>
        cases hde : data.isEmpty with
        | true => simp [analyze_stock, get_cached_data, hm, hro, hf, hde]
        | false =>
          cases hm2 : env.mkdir2 with
          | error e =>
            simp [analyze_stock, get_cached_data, set_cached_data, hm, hro,
              hf, hde, hm2]
          | ok u2 =>
            simp only [analyze_stock, get_cached_data, set_cached_data, hm,
              hro, hf, hde, hm2, Bool.false_eq_true, if_false, if_true]
            exact finishAnalysis_fst_congr _ _ _ _ _ _ rfl rfl
    | entry cached_data =>
      cases hlast : cached_data.getLast? with
      | none => simp [analyze_stock, get_cached_data, hm, hro, hlast]
      | some lb =>
        cases hfs : env.fetchSince (lb.Date + 1) with
        | error e =>
          simp [analyze_stock, get_cached_data, hm, hro, hlast, hfs]
        | ok new_data =>
          cases hne : new_data.isEmpty with
          | true =>
            simp only [analyze_stock, get_cached_data, hm, hro, hlast, hfs,
              hne, if_true]
            exact finishAnalysis_fst_congr _ _ _ _ _ _ rfl rfl
          | false =>
            cases hm2 : env.mkdir2 with
            | error e =>
              simp [analyze_stock, get_cached_data, set_cached_data, hm, hro,
                hlast, hfs, hne, hm2]
            | ok u2 =>
              simp only [analyze_stock, get_cached_data, set_cached_data, hm,
                hro, hlast, hfs, hne, hm2, Bool.false_eq_true, if_false,
                if_true]
              exact finishAnalysis_fst_congr _ _ _ _ _ _ rfl rfl

/-- The analysis tail is unchanged when only fields the tail never
reads differ between two behaviors. -/
theorem finishAnalysis_env_congr (e1 e2 : Env) (ticker : String)
    (data : List Bar) (w : List (ℚ × List Bar))
    (hs : e1.sqrtFn = e2.sqrtFn) (ht : e1.today = e2.today) :
    finishAnalysis e1 ticker data w = finishAnalysis e2 ticker data w := by
  unfold finishAnalysis
  rw [buildSnapshot_env_congr e1 e2 hs ht]

/-- A corrupt cache file and a missing cache file produce the
byte-for-byte same run of analyze_stock: the swallowed unpickling
failure is treated exactly as an absent entry, for every behavior of
the other collaborators. -/
theorem analyze_stock_corrupt_eq_missing (env : Env) (ticker : String) :
    analyze_stock { env with readOutcome := ReadOutcome.corrupt } ticker
      = analyze_stock { env with readOutcome := ReadOutcome.missing } ticker := by
  cases hm : env.mkdir1 with
  | error e => simp [analyze_stock, get_cached_data, hm]
  | ok u =>
    cases hf : env.fetchFull with
    | error e => simp [analyze_stock, get_cached_data, hm, hf]
    | ok data =>
      cases hde : data.isEmpty with
      | true => simp [analyze_stock, get_cached_data, hm, hf, hde]
      | false =>
        cases hm2 : env.mkdir2 with
        | error e =>
          simp [analyze_stock, get_cached_data, set_cached_data, hm, hf,
            hde, hm2]
        | ok u2 =>
          simp only [analyze_stock, get_cached_data, set_cached_data, hm, hf,
            hde, hm2, Bool.false_eq_true, if_false, if_true]
          cases env.writeOk <;>
            exact finishAnalysis_env_congr _ _ _ _ _ rfl rfl

/-- C2 (amended): when the provider data is there, a swallowed cache
failure is invisible: a corrupt (unreadable) cache file gives the
byte-for-byte same record as a missing entry, a failed pickle dump
gives the same record as a successful one, and the returned record is
a snapshot, not an error record.  (A failure of the cache-directory
creation itself is not absorbed: it surfaces as an error record, see
the counterexample.) -/
theorem cache_failures_absorbed (env : Env) (ticker : String)
    (data : List Bar) (lb : Bar) (vol : ℚ)
    (hm1 : env.mkdir1 = Except.ok ()) (hm2 : env.mkdir2 = Except.ok ())
    (hro : env.readOutcome = ReadOutcome.corrupt)
    (hf : env.fetchFull = Except.ok data)
    (hlast : data.getLast? = some lb) (hv : lb.Volume = some vol) :
    (analyze_stock env ticker).fst
        = (analyze_stock { env with readOutcome := ReadOutcome.missing }
            ticker).fst
      ∧ (analyze_stock { env with writeOk := false } ticker).fst
          = (analyze_stock { env with writeOk := true } ticker).fst
      ∧ ∃ snap, (analyze_stock env ticker).fst = AnalysisResult.ok snap := by
  have hne : data.isEmpty = false := by
    cases data with
    | nil => simp at hlast
    | cons a l => rfl
  have henv : { env with readOutcome := ReadOutcome.corrupt } = env := by
    rw [← hro]
  refine ⟨?_, analyze_stock_writeOk_irrelevant env ticker, ?_⟩
  · conv_lhs => rw [← henv]
    exact congrArg Prod.fst (analyze_stock_corrupt_eq_missing env ticker)
  · simp only [analyze_stock, get_cached_data, hm1, hro, hf, hne,
      Bool.false_eq_true, if_false, set_cached_data, hm2]
    cases hw : env.writeOk <;>
      simp only [if_true, if_false, Bool.false_eq_true, finishAnalysis, hne,
        buildSnapshot, hlast, hv] <;>
      exact ⟨_, rfl⟩

/-- Counterexample to C2 as stated: with a cached bar and a
successful non-empty incremental fetch, a failure to create the cache
directory inside set_cached_data is not absorbed; analyze_stock
returns an error record carrying the mkdir exception message. -/
theorem cache_dirfail_not_absorbed :
    (∃ new_data, envDirFail.fetchSince (barA.Date + 1)
        = Except.ok new_data ∧ new_data ≠ [])
      ∧ (analyze_stock envDirFail "AAPL").fst
          = AnalysisResult.error "Permission denied: .cache" :=
  ⟨⟨[barB], rfl, by simp⟩, rfl⟩

/-- Witness for C2: the amended absorption at a concrete corrupt
cache with a two-bar provider response. -/
theorem cache_failures_absorbed_witness :
    (envCorrupt.mkdir1 = Except.ok () ∧ envCorrupt.mkdir2 = Except.ok ()
        ∧ envCorrupt.readOutcome = ReadOutcome.corrupt
        ∧ envCorrupt.fetchFull = Except.ok [barA, barB]
        ∧ [barA, barB].getLast? = some barB ∧ barB.Volume = some 150)
      ∧ ((analyze_stock envCorrupt "AAPL").fst
            = (analyze_stock { envCorrupt with readOutcome := ReadOutcome.missing }
                "AAPL").fst
          ∧ (analyze_stock { envCorrupt with writeOk := false } "AAPL").fst
              = (analyze_stock { envCorrupt with writeOk := true } "AAPL").fst
          ∧ ∃ snap, (analyze_stock envCorrupt "AAPL").fst
              = AnalysisResult.ok snap) :=
  ⟨⟨rfl, rfl, rfl, rfl, rfl, rfl⟩,
    cache_failures_absorbed envCorrupt "AAPL" [barA, barB] barB 150
      rfl rfl rfl rfl rfl rfl⟩

/-- C3 (amended): a cache file that cannot be deserialized behaves
exactly as an absent one: the whole run, writes included, is
byte-for-byte that of the cold path, and with a non-empty well-formed
full fetch the result is a snapshot, not an error.  (A well-formed
entry holding an empty series is the exception: it takes the warm
path and fails indexing, see the counterexample.) -/
theorem corrupt_cache_cold_path (env : Env) (ticker : String)
    (data : List Bar) (lb : Bar) (vol : ℚ)
    (hm1 : env.mkdir1 = Except.ok ()) (hm2 : env.mkdir2 = Except.ok ())
    (hro : env.readOutcome = ReadOutcome.corrupt)
    (hf : env.fetchFull = Except.ok data)
    (hlast : data.getLast? = some lb) (hv : lb.Volume = some vol) :
    analyze_stock env ticker
        = analyze_stock { env with readOutcome := ReadOutcome.missing } ticker
      ∧ ∃ snap, (analyze_stock env ticker).fst = AnalysisResult.ok snap := by
  have hne : data.isEmpty = false := by
    cases data with
    | nil => simp at hlast
    | cons a l => rfl
  have henv : { env with readOutcome := ReadOutcome.corrupt } = env := by
    rw [← hro]
  constructor
  · conv_lhs => rw [← henv]
    exact analyze_stock_corrupt_eq_missing env ticker
  · simp only [analyze_stock, get_cached_data, hm1, hro, hf, hne,
      Bool.false_eq_true, if_false, set_cached_data, hm2]
    cases hw : env.writeOk <;>
      simp only [if_true, if_false, Bool.false_eq_true, finishAnalysis, hne,
        buildSnapshot, hlast, hv] <;>
      exact ⟨_, rfl⟩

/-- Counterexample to C3 as stated: a well-formed cache entry holding
an empty series is not treated as absent; analyze_stock takes the
warm path, indexing the empty series raises, and the run ends in an
error record instead of the cold fetch the claim promises. -/
theorem empty_entry_not_cold_path :
    envEmptyEntry.readOutcome = ReadOutcome.entry []
      ∧ (∃ data, envEmptyEntry.fetchFull = Except.ok data ∧ data ≠ [])
      ∧ (analyze_stock envEmptyEntry "MSFT").fst
          = AnalysisResult.error "index -1 is out of bounds for axis 0 with size 0"
      ∧ ∃ snap,
          (analyze_stock { envEmptyEntry with readOutcome := ReadOutcome.missing }
            "MSFT").fst = AnalysisResult.ok snap :=
  ⟨rfl, ⟨[barA, barB], rfl, by simp⟩, rfl, ⟨_, rfl⟩⟩

/-- Witness for C3: the amended cold-path behavior at a concrete
corrupt cache with a two-bar provider response. -/
theorem corrupt_cache_cold_path_witness :
    (envCorrupt.mkdir1 = Except.ok () ∧ envCorrupt.mkdir2 = Except.ok ()
        ∧ envCorrupt.readOutcome = ReadOutcome.corrupt
        ∧ envCorrupt.fetchFull = Except.ok [barA, barB]
        ∧ [barA, barB].getLast? = some barB ∧ barB.Volume = some 150)
      ∧ (analyze_stock envCorrupt "IBM"
            = analyze_stock { envCorrupt with readOutcome := ReadOutcome.missing }
                "IBM"
          ∧ ∃ snap, (analyze_stock envCorrupt "IBM").fst
              = AnalysisResult.ok snap) :=
  ⟨⟨rfl, rfl, rfl, rfl, rfl, rfl⟩,
    corrupt_cache_cold_path envCorrupt "IBM" [barA, barB] barB 150
      rfl rfl rfl rfl rfl rfl⟩

/-- C5: on the warm path, when the provider returns nothing after the
cached series, the analysis tail runs on the cached series unmodified
and the write log stays empty: set_cached_data is never called, so
the cache entry and its timestamp are untouched. -/
theorem warm_path_no_new_data (env : Env) (ticker : String)
    (cached_data : List Bar) (lb : Bar)
    (hm : env.mkdir1 = Except.ok ())
    (hro : env.readOutcome = ReadOutcome.entry cached_data)
    (hlast : cached_data.getLast? = some lb)
    (hfs : env.fetchSince (lb.Date + 1) = Except.ok []) :
    analyze_stock env ticker = finishAnalysis env ticker cached_data [] := by
  simp [analyze_stock, get_cached_data, hm, hro, hlast, hfs]

/-- Witness for C5: a one-bar cache, a provider with nothing new. -/
theorem warm_path_no_new_data_witness :
    (envWarmQuiet.mkdir1 = Except.ok ()
        ∧ envWarmQuiet.readOutcome = ReadOutcome.entry [barA]
        ∧ [barA].getLast? = some barA
        ∧ envWarmQuiet.fetchSince (barA.Date + 1) = Except.ok [])
      ∧ analyze_stock envWarmQuiet "AAPL"
          = finishAnalysis envWarmQuiet "AAPL" [barA] [] :=
  ⟨⟨rfl, rfl, rfl, rfl⟩,
    warm_path_no_new_data envWarmQuiet "AAPL" [barA] barA rfl rfl rfl rfl⟩

/-- C6: on the cold path, an empty provider series ends the run with
exactly the no-data error record for the symbol, and the write log is
empty: no cache entry is created. -/
theorem cold_path_empty_fetch (env : Env) (ticker : String)
    (hr : get_cached_data env = Except.ok none)
    (hf : env.fetchFull = Except.ok []) :
    analyze_stock env ticker
      = (AnalysisResult.error ("No data found for ticker " ++ ticker), []) := by
  simp [analyze_stock, hr, hf]

/-- Witness for C6: no cache entry and a provider with no data. -/
theorem cold_path_empty_fetch_witness :
    (get_cached_data envNoData = Except.ok none
        ∧ envNoData.fetchFull = Except.ok [])
      ∧ analyze_stock envNoData "XXXX"
          = (AnalysisResult.error ("No data found for ticker " ++ "XXXX"), []) :=
  ⟨⟨rfl, rfl⟩, cold_path_empty_fetch envNoData "XXXX" rfl rfl⟩

/-- Inversion of a successful snapshot construction: the series has a
latest bar with a proper volume, and the fields the claims inspect
are exactly the source expressions over the working series. -/
theorem buildSnapshot_ok_elim {env : Env} {ticker : String} {data : List Bar}
    {snap : Snapshot} (h : buildSnapshot env ticker data = Except.ok snap) :
    ∃ latest vol, data.getLast? = some latest ∧ latest.Volume = some vol
      ∧ snap.trend = computeTrend latest.Close (smaLast 50 (data.map Bar.Close))
          (smaLast 200 (data.map Bar.Close))
      ∧ snap.sma_200 = safe_round (smaLast 200 (data.map Bar.Close))
      ∧ snap.ema_8 = safe_round (emaLast 8 (data.map Bar.Close))
      ∧ snap.ema_10 = safe_round (emaLast 10 (data.map Bar.Close))
      ∧ snap.ema_21 = safe_round (emaLast 21 (data.map Bar.Close))
      ∧ snap.volume = intTrunc vol
      ∧ snap.support_levels
          = (bottom3Asc (lastN 50 (data.map Bar.Low))).map (fun x => roundTo x 2)
      ∧ snap.resistance_levels
          = (top3Desc (lastN 50 (data.map Bar.High))).map (fun x => roundTo x 2) := by
  cases hlast : data.getLast? with
  | none =>
    simp only [buildSnapshot, hlast] at h
    exact absurd h (by simp)
  | some latest =>
    cases hv : latest.Volume with
    | none =>
      simp only [buildSnapshot, hlast, hv] at h
      exact absurd h (by simp)
    | some vol =>
      simp only [buildSnapshot, hlast, hv, Except.ok.injEq] at h
      subst h
      exact ⟨latest, vol, rfl, hv, rfl, rfl, rfl, rfl, rfl, rfl, rfl, rfl⟩

/-- The trend is bullish exactly when both averages are present, both
are nonzero under Python truthiness, and the current price exceeds
both. -/
theorem computeTrend_eq_bullish (p : ℚ) (o1 o2 : Option ℚ) :
    computeTrend p o1 o2 = "bullish"
      ↔ ∃ a b, o1 = some a ∧ o2 = some b ∧ a ≠ 0 ∧ b ≠ 0 ∧ p > a ∧ p > b := by
  cases o1 with
  | none => simp [computeTrend]
  | some a =>
    cases o2 with
    | none => simp [computeTrend]
    | some b =>
      simp only [computeTrend]
      split_ifs with h1 h2 h3
      · constructor
        · intro _
          exact ⟨a, b, rfl, rfl, h1.1, h1.2, h2.1, h2.2⟩
        · intro _
          rfl
      · constructor
        · intro hh
          exact absurd hh (by decide)
        · rintro ⟨x, y, hx, hy, hx0, hy0, hpx, hpy⟩
          cases hx
          cases hy
          exact absurd ⟨hpx, hpy⟩ h2
      · constructor
        · intro hh
          exact absurd hh (by decide)
        · rintro ⟨x, y, hx, hy, hx0, hy0, hpx, hpy⟩
          cases hx
          cases hy
          exact absurd ⟨hpx, hpy⟩ h2
      · constructor
        · intro hh
          exact absurd hh (by decide)
        · rintro ⟨x, y, hx, hy, hx0, hy0, hpx, hpy⟩
          cases hx
          cases hy
          exact absurd ⟨hx0, hy0⟩ h1

/-- The trend is bearish exactly when both averages are present, both
are nonzero under Python truthiness, and the current price is below
both. -/
theorem computeTrend_eq_bearish (p : ℚ) (o1 o2 : Option ℚ) :
    computeTrend p o1 o2 = "bearish"
      ↔ ∃ a b, o1 = some a ∧ o2 = some b ∧ a ≠ 0 ∧ b ≠ 0 ∧ p < a ∧ p < b := by
  cases o1 with
  | none => simp [computeTrend]
  | some a =>
    cases o2 with
    | none => simp [computeTrend]
    | some b =>
      simp only [computeTrend]
      split_ifs with h1 h2 h3
      · constructor
        · intro hh
          exact absurd hh (by decide)
        · rintro ⟨x, y, hx, hy, hx0, hy0, hpx, hpy⟩
          cases hx
          cases hy
          exact absurd h2.1 (lt_asymm hpx)
      · constructor
        · intro _
          exact ⟨a, b, rfl, rfl, h1.1, h1.2, h3.1, h3.2⟩
        · intro _
          rfl
      · constructor
        · intro hh
          exact absurd hh (by decide)
        · rintro ⟨x, y, hx, hy, hx0, hy0, hpx, hpy⟩
          cases hx
          cases hy
          exact absurd ⟨hpx, hpy⟩ h3
      · constructor
        · intro hh
          exact absurd hh (by decide)
        · rintro ⟨x, y, hx, hy, hx0, hy0, hpx, hpy⟩
          cases hx
          cases hy
          exact absurd ⟨hx0, hy0⟩ h1

/-- With an undefined 200-bar average the trend is neutral. -/
theorem computeTrend_none_right (p : ℚ) (o1 : Option ℚ) :
    computeTrend p o1 none = "neutral" := by
  cases o1 <;> rfl

/-- The trend field only takes the three values of the source. -/
theorem computeTrend_cases (p : ℚ) (o1 o2 : Option ℚ) :
    computeTrend p o1 o2 = "bullish" ∨ computeTrend p o1 o2 = "bearish"
      ∨ computeTrend p o1 o2 = "neutral" := by
  cases o1 with
  | none => exact Or.inr (Or.inr rfl)
  | some a =>
    cases o2 with
    | none => exact Or.inr (Or.inr rfl)
    | some b =>
      simp only [computeTrend]
      split_ifs with h1 h2 h3
      · exact Or.inl rfl
      · exact Or.inr (Or.inl rfl)
      · exact Or.inr (Or.inr rfl)
      · exact Or.inr (Or.inr rfl)

/-- A simple moving average over a window longer than the series is
undefined. -/
theorem smaLast_eq_none (n : Nat) (closes : List ℚ) (h : closes.length < n) :
    smaLast n closes = none := by
  simp only [smaLast, ite_eq_right_iff]
  intro hc
  omega

/-- C7 (amended): the trend field is bullish exactly when the latest
close exceeds both a defined and nonzero SMA-50 and a defined and
nonzero SMA-200, bearish exactly when it is below both defined
nonzero averages, and neutral in every other case; in particular a
series shorter than 200 bars has a null sma_200 and a neutral trend.
(Python truthiness makes a zero-valued average behave like an
undefined one, see the counterexample to the claim as stated.) -/
theorem trend_classification (env : Env) (ticker : String) (data : List Bar)
    (snap : Snapshot) (lb : Bar)
    (h : buildSnapshot env ticker data = Except.ok snap)
    (hlast : data.getLast? = some lb) :
    (snap.trend = "bullish"
        ↔ ∃ a b, smaLast 50 (data.map Bar.Close) = some a
            ∧ smaLast 200 (data.map Bar.Close) = some b
            ∧ a ≠ 0 ∧ b ≠ 0 ∧ lb.Close > a ∧ lb.Close > b)
      ∧ (snap.trend = "bearish"
          ↔ ∃ a b, smaLast 50 (data.map Bar.Close) = some a
              ∧ smaLast 200 (data.map Bar.Close) = some b
              ∧ a ≠ 0 ∧ b ≠ 0 ∧ lb.Close < a ∧ lb.Close < b)
      ∧ (data.length < 200 → snap.sma_200 = none ∧ snap.trend = "neutral")
      ∧ (snap.trend = "bullish" ∨ snap.trend = "bearish"
          ∨ snap.trend = "neutral") := by
  obtain ⟨latest, vol, hl, hv, htrend, hsma, _⟩ := buildSnapshot_ok_elim h
  have hlb : latest = lb := by
    rw [hlast] at hl
    exact (Option.some.injEq _ _ ▸ hl).symm ▸ rfl
  subst hlb
  rw [htrend, hsma]
  refine ⟨computeTrend_eq_bullish _ _ _, computeTrend_eq_bearish _ _ _, ?_, ?_⟩
  · intro hlen
    have h200 : smaLast 200 (data.map Bar.Close) = none := by
      apply smaLast_eq_none
      simpa using hlen
    rw [h200]
    exact ⟨rfl, computeTrend_none_right _ _⟩
  · exact computeTrend_cases _ _ _

set_option maxRecDepth 100000 in
/-- The closing column of the zero-average series. -/
theorem seriesZeroSma_closes :
    seriesZeroSma.map Bar.Close = List.replicate 198 (0:ℚ) ++ [-2, 2] := by
  rw [seriesZeroSma, List.map_append, List.map_map]
  have hcomp : (Bar.Close ∘ fun i => mkBar (Int.ofNat i) 0) = fun _ => (0:ℚ) :=
    funext fun i => rfl
  rw [hcomp, List.map_const', List.length_range]
  rfl

set_option maxRecDepth 100000 in
/-- The 50-bar average of the zero-average series is exactly 0. -/
theorem seriesZeroSma_sma50 :
    smaLast 50 (List.replicate 198 (0:ℚ) ++ [-2, 2]) = some 0 := by
  have hlen : (List.replicate 198 (0:ℚ) ++ [-2, 2]).length = 200 := by
    rw [List.length_append, List.length_replicate]
    rfl
  have h1 : lastN 50 (List.replicate 198 (0:ℚ) ++ [-2, 2])
      = List.replicate 48 (0:ℚ) ++ [-2, 2] := by
    rw [lastN, hlen, List.drop_append_eq_append_drop, List.drop_replicate,
      List.length_replicate]
    rfl
  have h2 : (List.replicate 48 (0:ℚ) ++ [-2, 2]).sum = 0 := by
    simp only [List.sum_append, List.sum_replicate, smul_zero, List.sum_cons,
      List.sum_nil]
    norm_num
  rw [smaLast, if_pos ⟨by rw [hlen]; try decide, by decide⟩, h1, h2]
  norm_num

set_option maxRecDepth 100000 in
/-- The 200-bar average of the zero-average series is exactly 0. -/
theorem seriesZeroSma_sma200 :
    smaLast 200 (List.replicate 198 (0:ℚ) ++ [-2, 2]) = some 0 := by
  have hlen : (List.replicate 198 (0:ℚ) ++ [-2, 2]).length = 200 := by
    rw [List.length_append, List.length_replicate]
    rfl
  have h1 : lastN 200 (List.replicate 198 (0:ℚ) ++ [-2, 2])
      = List.replicate 198 (0:ℚ) ++ [-2, 2] := by
    rw [lastN, hlen, List.drop_append_eq_append_drop, List.drop_replicate,
      List.length_replicate]
    rfl
  have h2 : (List.replicate 198 (0:ℚ) ++ [-2, 2]).sum = 0 := by
    simp only [List.sum_append, List.sum_replicate, smul_zero, List.sum_cons,
      List.sum_nil]
    norm_num
  rw [smaLast, if_pos ⟨by rw [hlen]; try decide, by decide⟩, h1, h2]
  norm_num

set_option maxRecDepth 100000 in
/-- Counterexample to C7 as stated: on a 200-bar series whose 50-bar
and 200-bar averages are both defined and equal to 0 while the latest
close 2 exceeds both, the snapshot's trend is neutral, not bullish:
Python truthiness treats the zero-valued averages as missing. -/
theorem trend_zero_sma_not_bullish :
    (∃ snap, buildSnapshot envBase "T" seriesZeroSma = Except.ok snap
        ∧ snap.trend = "neutral" ∧ snap.trend ≠ "bullish")
      ∧ seriesZeroSma.getLast? = some (mkBar 199 2)
      ∧ (mkBar 199 2).Close = 2
      ∧ smaLast 50 (seriesZeroSma.map Bar.Close) = some 0
      ∧ smaLast 200 (seriesZeroSma.map Bar.Close) = some 0
      ∧ (2:ℚ) > 0 := by
  have h50 : smaLast 50 (seriesZeroSma.map Bar.Close) = some 0 := by
    rw [seriesZeroSma_closes]
    exact seriesZeroSma_sma50
  have h200 : smaLast 200 (seriesZeroSma.map Bar.Close) = some 0 := by
    rw [seriesZeroSma_closes]
    exact seriesZeroSma_sma200
  have hlast : seriesZeroSma.getLast? = some (mkBar 199 2) := by
    rfl
  have hex : ∃ snap, buildSnapshot envBase "T" seriesZeroSma
      = Except.ok snap := ⟨_, rfl⟩
  obtain ⟨snap, hsnap⟩ := hex
  obtain ⟨latest, vol, hl, hv, htrend, _⟩ := buildSnapshot_ok_elim hsnap
  have hlatest : latest = mkBar 199 2 := by
    rw [hlast] at hl
    exact (Option.some.inj hl).symm
  subst hlatest
  have hneutral : snap.trend = "neutral" := by
    rw [htrend, h50, h200]
    simp [computeTrend]
  refine ⟨⟨snap, hsnap, hneutral, ?_⟩, hlast, rfl, h50, h200, by norm_num⟩
  rw [hneutral]
  decide

/-- Witness for C7: the amended trend rule applied to a concrete
two-bar run, giving the sub-200-bar null average and neutral trend. -/
theorem trend_classification_witness :
    (buildSnapshot envBase "T" [barA, barB]
        = Except.ok (snapOf (buildSnapshot envBase "T" [barA, barB]))
      ∧ [barA, barB].getLast? = some barB
      ∧ [barA, barB].length < 200)
      ∧ ((snapOf (buildSnapshot envBase "T" [barA, barB])).sma_200 = none
          ∧ (snapOf (buildSnapshot envBase "T" [barA, barB])).trend = "neutral") :=
  ⟨⟨rfl, rfl, by decide⟩,
    (trend_classification envBase "T" [barA, barB]
        (snapOf (buildSnapshot envBase "T" [barA, barB])) barB rfl rfl).2.2.1
      (by decide)⟩

/-- The exponential moving average at the latest row is defined for
every non-empty closing series. -/
theorem emaLast_isSome (n : Nat) (closes : List ℚ) (h : closes ≠ []) :
    (emaLast n closes).isSome := by
  cases closes with
  | nil => exact absurd rfl h
  | cons c rest =>
    rw [emaLast, emaSeq]
    exact List.getLast?_isSome.2 (by simp)

/-- C8: the EMA fields at spans 8, 10 and 21 of every snapshot are
non-null, and each emaLast is none only on the zero-bar series. -/
theorem ema_fields_defined :
    (emaLast 8 ([] : List ℚ) = none ∧ emaLast 10 ([] : List ℚ) = none
        ∧ emaLast 21 ([] : List ℚ) = none)
      ∧ ∀ (env : Env) (ticker : String) (data : List Bar) (snap : Snapshot),
          buildSnapshot env ticker data = Except.ok snap →
            snap.ema_8.isSome ∧ snap.ema_10.isSome ∧ snap.ema_21.isSome := by
  refine ⟨⟨rfl, rfl, rfl⟩, ?_⟩
  intro env ticker data snap h
  obtain ⟨latest, vol, hl, hv, _, _, he8, he10, he21, _⟩ :=
    buildSnapshot_ok_elim h
  have hne : data.map Bar.Close ≠ [] := by
    cases data with
    | nil => simp at hl
    | cons a l => simp
  rw [he8, he10, he21]
  refine ⟨?_, ?_, ?_⟩ <;>
    [obtain ⟨v, hv8⟩ := Option.isSome_iff_exists.1 (emaLast_isSome 8 _ hne);
      obtain ⟨v, hv10⟩ := Option.isSome_iff_exists.1 (emaLast_isSome 10 _ hne);
      obtain ⟨v, hv21⟩ := Option.isSome_iff_exists.1 (emaLast_isSome 21 _ hne)]
  · rw [hv8]
    rfl
  · rw [hv10]
    rfl
  · rw [hv21]
    rfl

/-- Witness for C8: the EMA fields of a concrete one-bar run are all
present. -/
theorem ema_fields_defined_witness :
    (buildSnapshot envBase "T" [barA]
        = Except.ok (snapOf (buildSnapshot envBase "T" [barA])))
      ∧ ((snapOf (buildSnapshot envBase "T" [barA])).ema_8.isSome
          ∧ (snapOf (buildSnapshot envBase "T" [barA])).ema_10.isSome
          ∧ (snapOf (buildSnapshot envBase "T" [barA])).ema_21.isSome) :=
  ⟨rfl, ema_fields_defined.2 envBase "T" [barA]
      (snapOf (buildSnapshot envBase "T" [barA])) rfl⟩

/-- Rounding to a fixed number of decimals is monotone, so it
preserves the sortedness of the level lists. -/
theorem roundTo_mono {x y : ℚ} (h : x ≤ y) (d : Nat) :
    roundTo x d ≤ roundTo y d := by
  rw [roundTo, roundTo]
  have hp : (0:ℚ) < 10 ^ d := by positivity
  have hr : (round (x * 10 ^ d) : ℤ) ≤ round (y * 10 ^ d) := by
    rw [round_eq, round_eq]
    apply Int.floor_mono
    have hm : x * 10 ^ d ≤ y * 10 ^ d :=
      mul_le_mul_of_nonneg_right h (le_of_lt hp)
    linarith
  exact (div_le_div_iff_of_pos_right hp).2 (by exact_mod_cast hr)

/-- The tail window has the length of the window or of the whole
series, whichever is smaller. -/
theorem lastN_length (n : Nat) (l : List α) :
    (lastN n l).length = min n l.length := by
  simp only [lastN, List.length_drop]
  omega

/-- The descending top-three selection in the source: the window
splits, up to permutation, into the selection and a remainder, the
selection is descending, has min 3 (window length) entries, and
dominates every remaining element. -/
theorem top3Desc_spec (l : List ℚ) :
    ∃ rest, l.Perm (top3Desc l ++ rest)
      ∧ (top3Desc l).Pairwise (· ≥ ·)
      ∧ (top3Desc l).length = min 3 l.length
      ∧ ∀ x ∈ rest, ∀ y ∈ top3Desc l, x ≤ y := by
  refine ⟨(List.insertionSort (fun a b => a ≥ b) l).drop 3, ?_, ?_, ?_, ?_⟩
  · have hsplit : top3Desc l ++ (List.insertionSort (fun a b => a ≥ b) l).drop 3
        = List.insertionSort (fun a b => a ≥ b) l := by
      rw [top3Desc, List.take_append_drop]
    rw [hsplit]
    exact (List.perm_insertionSort _ l).symm
  · exact List.Pairwise.sublist (List.take_sublist 3 _)
      (List.sorted_insertionSort (fun a b => a ≥ b) l)
  · rw [top3Desc, List.length_take, (List.perm_insertionSort _ l).length_eq]
  · intro x hx y hy
    have hs := List.sorted_insertionSort (fun a b => a ≥ b) l
    rw [← List.take_append_drop 3 (List.insertionSort (fun a b => a ≥ b) l)]
      at hs
    exact (List.pairwise_append.1 hs).2.2 y hy x hx

/-- The ascending bottom-three selection in the source: the window
splits, up to permutation, into the selection and a remainder, the
selection is ascending, has min 3 (window length) entries, and is
dominated by every remaining element. -/
theorem bottom3Asc_spec (l : List ℚ) :
    ∃ rest, l.Perm (bottom3Asc l ++ rest)
      ∧ (bottom3Asc l).Pairwise (· ≤ ·)
      ∧ (bottom3Asc l).length = min 3 l.length
      ∧ ∀ x ∈ rest, ∀ y ∈ bottom3Asc l, y ≤ x := by
  refine ⟨(List.insertionSort (fun a b => a ≤ b) l).drop 3, ?_, ?_, ?_, ?_⟩
  · have hsplit : bottom3Asc l ++ (List.insertionSort (fun a b => a ≤ b) l).drop 3
        = List.insertionSort (fun a b => a ≤ b) l := by
      rw [bottom3Asc, List.take_append_drop]
    rw [hsplit]
    exact (List.perm_insertionSort _ l).symm
  · exact List.Pairwise.sublist (List.take_sublist 3 _)
      (List.sorted_insertionSort (fun a b => a ≤ b) l)
  · rw [bottom3Asc, List.length_take, (List.perm_insertionSort _ l).length_eq]
  · intro x hx y hy
    have hs := List.sorted_insertionSort (fun a b => a ≤ b) l
    rw [← List.take_append_drop 3 (List.insertionSort (fun a b => a ≤ b) l)]
      at hs
    exact (List.pairwise_append.1 hs).2.2 y hy x hx

/-- C9: the snapshot levels are the rounded top-three highs and
bottom-three lows of the most recent min(50, n)-bar window, the
selections are the three extremes of the window (up to permutation of
the remainder and dominance over it), and the emitted lists stay
sorted descending resp. ascending after rounding. -/
theorem support_resistance_levels (env : Env) (ticker : String)
    (data : List Bar) (snap : Snapshot)
    (h : buildSnapshot env ticker data = Except.ok snap) :
    (snap.resistance_levels
        = (top3Desc (lastN 50 (data.map Bar.High))).map (fun x => roundTo x 2)
      ∧ snap.support_levels
        = (bottom3Asc (lastN 50 (data.map Bar.Low))).map (fun x => roundTo x 2))
    ∧ (∃ rest, (lastN 50 (data.map Bar.High)).Perm
            (top3Desc (lastN 50 (data.map Bar.High)) ++ rest)
          ∧ (top3Desc (lastN 50 (data.map Bar.High))).Pairwise (· ≥ ·)
          ∧ (top3Desc (lastN 50 (data.map Bar.High))).length
              = min 3 (min 50 data.length)
          ∧ ∀ x ∈ rest, ∀ y ∈ top3Desc (lastN 50 (data.map Bar.High)), x ≤ y)
    ∧ (∃ rest, (lastN 50 (data.map Bar.Low)).Perm
            (bottom3Asc (lastN 50 (data.map Bar.Low)) ++ rest)
          ∧ (bottom3Asc (lastN 50 (data.map Bar.Low))).Pairwise (· ≤ ·)
          ∧ (bottom3Asc (lastN 50 (data.map Bar.Low))).length
              = min 3 (min 50 data.length)
          ∧ ∀ x ∈ rest, ∀ y ∈ bottom3Asc (lastN 50 (data.map Bar.Low)), y ≤ x)
    ∧ snap.resistance_levels.Pairwise (· ≥ ·)
    ∧ snap.support_levels.Pairwise (· ≤ ·) := by
  obtain ⟨latest, vol, hl, hv, _, _, _, _, _, _, hsup, hres⟩ :=
    buildSnapshot_ok_elim h
  obtain ⟨restH, hpermH, hsortH, hlenH, hdomH⟩ :=
    top3Desc_spec (lastN 50 (data.map Bar.High))
  obtain ⟨restL, hpermL, hsortL, hlenL, hdomL⟩ :=
    bottom3Asc_spec (lastN 50 (data.map Bar.Low))
  have hlenH2 : (lastN 50 (data.map Bar.High)).length = min 50 data.length := by
    rw [lastN_length, List.length_map]
  have hlenL2 : (lastN 50 (data.map Bar.Low)).length = min 50 data.length := by
    rw [lastN_length, List.length_map]
  refine ⟨⟨hres, hsup⟩,
    ⟨restH, hpermH, hsortH, by rw [hlenH, hlenH2], hdomH⟩,
    ⟨restL, hpermL, hsortL, by rw [hlenL, hlenL2], hdomL⟩, ?_, ?_⟩
  · rw [hres]
    exact List.Pairwise.map _ (fun a b hab => roundTo_mono hab 2) hsortH
  · rw [hsup]
    exact List.Pairwise.map _ (fun a b hab => roundTo_mono hab 2) hsortL

/-- Witness for C9 at the four-bar series with highs 10, 12, 15, 11
from the specification example. -/
theorem support_resistance_levels_witness :
    (buildSnapshot envBase "T" seriesHighs
        = Except.ok (snapOf (buildSnapshot envBase "T" seriesHighs)))
      ∧ ((snapOf (buildSnapshot envBase "T" seriesHighs)).resistance_levels
            = (top3Desc (lastN 50 (seriesHighs.map Bar.High))).map
                (fun x => roundTo x 2)
          ∧ (snapOf (buildSnapshot envBase "T" seriesHighs)).support_levels
            = (bottom3Asc (lastN 50 (seriesHighs.map Bar.Low))).map
                (fun x => roundTo x 2)) :=
  ⟨rfl, (support_resistance_levels envBase "T" seriesHighs
      (snapOf (buildSnapshot envBase "T" seriesHighs)) rfl).1⟩

/-- C10: the volume field of every snapshot is the integer truncation
of the latest bar's volume, never null; and a NaN volume on the
latest bar aborts the whole invocation with an error record, here
shown on the cold path. -/
theorem volume_total_or_error (env : Env) (ticker : String) :
    (∀ (data : List Bar) (snap : Snapshot),
        buildSnapshot env ticker data = Except.ok snap →
          ∃ latest vol, data.getLast? = some latest
            ∧ latest.Volume = some vol ∧ snap.volume = intTrunc vol)
      ∧ (∀ (data : List Bar) (latest : Bar),
          get_cached_data env = Except.ok none
            → env.fetchFull = Except.ok data
            → env.mkdir2 = Except.ok ()
            → data.getLast? = some latest
            → latest.Volume = none
            → (analyze_stock env ticker).fst
                = AnalysisResult.error "cannot convert float NaN to integer") := by
  constructor
  · intro data snap h
    obtain ⟨latest, vol, hl, hv, _, _, _, _, _, hvol, _, _⟩ :=
      buildSnapshot_ok_elim h
    exact ⟨latest, vol, hl, hv, hvol⟩
  · intro data latest hr hf hm2 hl hv
    have hne : data.isEmpty = false := by
      cases data with
      | nil => simp at hl
      | cons a l => rfl
    simp only [analyze_stock, hr, hf, hne, Bool.false_eq_true, if_false,
      set_cached_data, hm2]
    cases hw : env.writeOk <;>
      simp only [if_true, if_false, Bool.false_eq_true, finishAnalysis, hne,
        buildSnapshot, hl, hv]

/-- Witness for C10: the defined-volume direction on a one-bar run
and the NaN-volume error on a concrete cold-path run. -/
theorem volume_total_or_error_witness :
    ((buildSnapshot envBase "T" [barA]
          = Except.ok (snapOf (buildSnapshot envBase "T" [barA])))
        ∧ ∃ latest vol, [barA].getLast? = some latest
            ∧ latest.Volume = some vol
            ∧ (snapOf (buildSnapshot envBase "T" [barA])).volume = intTrunc vol)
      ∧ (get_cached_data envNaNVolume = Except.ok none
          ∧ envNaNVolume.fetchFull = Except.ok [barNaN]
          ∧ envNaNVolume.mkdir2 = Except.ok ()
          ∧ [barNaN].getLast? = some barNaN
          ∧ barNaN.Volume = none
          ∧ (analyze_stock envNaNVolume "T").fst
              = AnalysisResult.error "cannot convert float NaN to integer") :=
  ⟨⟨rfl, (volume_total_or_error envBase "T").1 [barA]
      (snapOf (buildSnapshot envBase "T" [barA])) rfl⟩,
    ⟨rfl, rfl, rfl, rfl, rfl,
      (volume_total_or_error envNaNVolume "T").2 [barNaN] barNaN
        rfl rfl rfl rfl rfl⟩⟩
